import Mathlib

/-!
Verification of the relationship (connection) subsystem of the server-userprofile
backend.  The two persistent collections are modelled as Lean lists of records and
each route handler as a pure function from store to (response, store).

Modelling conventions, matching the JavaScript/Mongoose source:
- Mongo ObjectIds are `Nat`; dates are `Nat` ticks passed as a `now` argument.
- An absent (`undefined`) body field is `Option.none`; string fields that the
  route reads directly are modelled as already trimmed strings.
- A Mongoose query filter whose value is `undefined` is stripped from the query
  (it matches every document); `findOne` on a non-empty collection with an
  empty filter returns the first document.
- The unique partial indexes declared in the models are enforced at `save`:
  a violating write throws a duplicate-key error which each route maps per its
  own catch block (HTTP 400 where the handler checks error code 11000, 500
  otherwise).  Mongo only re-checks an index on update when one of the indexed
  key fields changes.
- The Mongoose `maxlength: 1000` validator on `message` is checked at save.
-/

namespace UserProfileSrv

/-- Relationship status, from the `relationshipStatus` enum shared by
`src/models/Connection.js` and `src/models/CareerAgent.js`. -/
inductive RStatus
  | active
  | inactive
  | pending
  | proposed
  | requested
  | rejected
  deriving DecidableEq

/-- String form of a status, as stored and as interpolated into route messages. -/
def RStatus.str : RStatus → String
  | .active => "active"
  | .inactive => "inactive"
  | .pending => "pending"
  | .proposed => "proposed"
  | .requested => "requested"
  | .rejected => "rejected"

/-- Connection kind, from the `connectionType` enum of `src/models/Connection.js`. -/
inductive ConnType
  | friend
  | careerAgent
  deriving DecidableEq

/-- String form of a connection type, as interpolated into route messages. -/
def ConnType.str : ConnType → String
  | .friend => "friend"
  | .careerAgent => "careerAgent"

/-- Outcome of a route handler: an HTTP success code, or an HTTP error code
with the message the handler puts in the JSON body. -/
inductive Resp
  | ok (code : Nat)
  | err (code : Nat) (msg : String)
  deriving DecidableEq

/-- A document of the CareerAgent collection (`src/models/CareerAgent.js`). -/
structure CaRecord where
  id : Nat
  careerAgentId : String
  candidateId : String
  relationshipStatus : RStatus
  startDate : Option Nat
  endDate : Option Nat
  message : Option String
  deriving DecidableEq

/-- Mongoose `maxlength: 1000` validator on `message`. -/
def msgOk : Option String → Prop
  | none => True
  | some s => s.length ≤ 1000

instance : DecidablePred msgOk := fun m => by
  cases m <;> simp [msgOk] <;> infer_instance

/-- JS `if (message) doc.message = message`: overwrite the stored message only
when the body supplies a truthy (non-empty) one. -/
def overwriteMsg (body old : Option String) : Option String :=
  match body with
  | some m => if m = "" then old else some m
  | none => old

/-- Number of Active CareerAgent-collection records for a candidate. -/
def caActiveCount (s : List CaRecord) (cand : String) : Nat :=
  (s.filter (fun r => r.candidateId == cand && r.relationshipStatus == RStatus.active)).length

/-- Violation test for the CareerAgent collection's unique partial index on
(candidateId, relationshipStatus) restricted to `relationshipStatus: 'active'`,
when inserting a brand-new document with the given candidate and status. -/
def caDupKeyIns (s : List CaRecord) (cand : String) (st : RStatus) : Bool :=
  st == RStatus.active &&
    s.any (fun o => o.candidateId == cand && o.relationshipStatus == RStatus.active)

/-- Violation test for the same index when updating an existing document `r`
(another document with a different _id is already active for the same candidate). -/
def caDupKey (s : List CaRecord) (r : CaRecord) : Bool :=
  r.relationshipStatus == RStatus.active &&
    s.any (fun o => o.id != r.id && o.candidateId == r.candidateId &&
      o.relationshipStatus == RStatus.active)

/-- POST /api/careeragent (`src/routes/careerAgent copy.js`, create).
`newId` is the ObjectId Mongo assigns to the inserted document. -/
def caCreate (profiles : List String) (s : List CaRecord) (newId now : Nat)
    (careerAgentId candidateId : String) (message : Option String)
    (relationshipStatus : Option RStatus) : Resp × List CaRecord :=
  if careerAgentId = "" ∨ candidateId = "" ∨ ¬ msgOk message then
    (.err 400 "Validation failed", s)
  else if careerAgentId = candidateId then
    (.err 400 "Career agent and candidate cannot be the same person", s)
  else if ¬ profiles.contains careerAgentId then
    (.err 404 "Career agent profile not found", s)
  else if ¬ profiles.contains candidateId then
    (.err 404 "Candidate profile not found", s)
  else if s.any (fun r => r.candidateId == candidateId &&
      r.relationshipStatus == RStatus.active) then
    (.err 400 "Candidate already has an active career agent relationship", s)
  else
    match s.find? (fun r => r.careerAgentId == careerAgentId && r.candidateId == candidateId &&
        (r.relationshipStatus == RStatus.pending || r.relationshipStatus == RStatus.proposed)) with
    | some ex =>
      (.err 400 ("A " ++ ex.relationshipStatus.str ++ " request already exists between these users"), s)
    | none =>
      let st := relationshipStatus.getD RStatus.active
      if caDupKeyIns s candidateId st then
        (.err 400 "This candidate already has a career agent assigned", s)
      else
        let newRec : CaRecord :=
          { id := newId, careerAgentId := careerAgentId,
            candidateId := candidateId, relationshipStatus := st,
            startDate := some now, endDate := none,
            message := some (message.getD "") }
        (.ok 201, s ++ [newRec])

/-- POST /api/careeragent/request.  `actorId` is `req.user.userId` (the candidate);
`actorFirstName` is `req.user.firstName`. -/
def caRequest (profiles : List String) (s : List CaRecord) (newId now : Nat)
    (actorId : String) (actorFirstName : Option String)
    (careerAgentId : String) (message : Option String) : Resp × List CaRecord :=
  if careerAgentId = actorId then
    (.err 400 "You cannot request yourself as a career agent", s)
  else if ¬ profiles.contains careerAgentId then
    (.err 404 "Requested career agent profile not found", s)
  else if s.any (fun r => r.candidateId == actorId &&
      r.relationshipStatus == RStatus.active) then
    (.err 400 "You already have an active career agent", s)
  else if s.any (fun r => r.careerAgentId == careerAgentId && r.candidateId == actorId &&
      r.relationshipStatus == RStatus.pending) then
    (.err 400 "You already have a pending request to this career agent", s)
  else
    let dflt := actorFirstName.getD "User" ++ " has requested you to be their career agent"
    let msg := match message with
      | some m => if m = "" then dflt else m
      | none => dflt
    if ¬ msgOk (some msg) then (.err 500 "Internal server error", s)
    else
      let newRec : CaRecord :=
        { id := newId, careerAgentId := careerAgentId, candidateId := actorId,
          relationshipStatus := RStatus.pending, startDate := some now, endDate := none,
          message := some msg }
      (.ok 201, s ++ [newRec])

/-- POST /api/careeragent/propose.  `actorId` is `req.user.userId` (the proposing agent). -/
def caPropose (profiles : List String) (s : List CaRecord) (newId now : Nat)
    (actorId : String) (actorFirstName : Option String)
    (candidateId : String) (message : Option String) : Resp × List CaRecord :=
  if actorId = candidateId then
    (.err 400 "You cannot propose yourself as your own career agent", s)
  else if ¬ profiles.contains candidateId then
    (.err 404 "Candidate profile not found", s)
  else if s.any (fun r => r.candidateId == candidateId &&
      r.relationshipStatus == RStatus.active) then
    (.err 400 "This candidate already has an active career agent", s)
  else
    match s.find? (fun r => r.careerAgentId == actorId && r.candidateId == candidateId &&
        (r.relationshipStatus == RStatus.pending || r.relationshipStatus == RStatus.proposed)) with
    | some ex =>
      (.err 400 ("A " ++ ex.relationshipStatus.str ++
        " relationship already exists between you and this candidate"), s)
    | none =>
      let dflt := actorFirstName.getD "A career agent" ++ " has proposed to mentor you"
      let msg := match message with
        | some m => if m = "" then dflt else m
        | none => dflt
      if ¬ msgOk (some msg) then (.err 500 "Internal server error", s)
      else
        let newRec : CaRecord :=
          { id := newId, careerAgentId := actorId, candidateId := candidateId,
            relationshipStatus := RStatus.proposed, startDate := some now, endDate := none,
            message := some msg }
        (.ok 201, s ++ [newRec])

/-- PUT /api/careeragent/:relationshipId/accept.  The handler first runs
findOne on {_id, relationshipStatus in [pending, proposed]}, then authorizes the
agent for a pending request and the candidate for a proposed one.  The save can
still hit the candidate-exclusivity unique index; the catch block has no 11000
case, so that surfaces as HTTP 500. -/
def caAccept (s : List CaRecord) (now : Nat) (relationshipId : Nat) (userId : String) :
    Resp × List CaRecord :=
  match s.find? (fun r => r.id == relationshipId &&
      (r.relationshipStatus == RStatus.pending || r.relationshipStatus == RStatus.proposed)) with
  | none => (.err 404 "Pending or proposed request not found", s)
  | some rel =>
    let isAuthorized : Bool :=
      if rel.relationshipStatus = RStatus.pending then rel.careerAgentId == userId
      else if rel.relationshipStatus = RStatus.proposed then rel.candidateId == userId
      else false
    if isAuthorized then
      let rel' : CaRecord := { rel with relationshipStatus := RStatus.active, startDate := some now }
      if ¬ msgOk rel'.message ∨ caDupKey s rel' then
        (.err 500 "Internal server error", s)
      else
        (.ok 200, s.map (fun r => if r.id = relationshipId then rel' else r))
    else (.err 403 "You are not authorized to accept this request", s)

/-- PUT /api/careeragent/:relationshipId/reject.  Same lookup and authorization
as accept; on success it writes relationshipStatus 'inactive' (not 'rejected'),
stamps endDate, and overwrites message only when the body supplies a truthy one. -/
def caReject (s : List CaRecord) (now : Nat) (relationshipId : Nat) (userId : String)
    (message : Option String) : Resp × List CaRecord :=
  match s.find? (fun r => r.id == relationshipId &&
      (r.relationshipStatus == RStatus.pending || r.relationshipStatus == RStatus.proposed)) with
  | none => (.err 404 "Pending or proposed request not found", s)
  | some rel =>
    let isAuthorized : Bool :=
      if rel.relationshipStatus = RStatus.pending then rel.careerAgentId == userId
      else if rel.relationshipStatus = RStatus.proposed then rel.candidateId == userId
      else false
    if isAuthorized then
      let rel' : CaRecord :=
        { rel with
          relationshipStatus := RStatus.inactive,
          endDate := some now, message := overwriteMsg message rel.message }
      if ¬ msgOk rel'.message then (.err 500 "Internal server error", s)
      else
        (.ok 200, s.map (fun r => if r.id = relationshipId then rel' else r))
    else (.err 403 "You are not authorized to reject this request", s)

/-- PUT /api/careeragent/:relationshipId.  The handler reads no acting user at
all: `actingUserId` models `req.user.userId`, which it never consults.  Setting
relationshipStatus to 'inactive' without an endDate auto-stamps endDate. -/
def caUpdate (s : List CaRecord) (now : Nat) (relationshipId : Nat) (_actingUserId : String)
    (relationshipStatus : Option RStatus) (message : Option (Option String))
    (endDate : Option Nat) : Resp × List CaRecord :=
  let endDate' := if relationshipStatus = some RStatus.inactive ∧ endDate = none
    then some now else endDate
  match s.find? (fun r => r.id == relationshipId) with
  | none => (.err 404 "Career agent relationship not found", s)
  | some rel =>
    let rel' : CaRecord := { rel with
      relationshipStatus := relationshipStatus.getD rel.relationshipStatus,
      message := match message with
        | some v => v
        | none => rel.message,
      endDate := match endDate' with
        | some d => some d
        | none => rel.endDate }
    if ¬ msgOk rel'.message ∨ caDupKey s rel' then
      (.err 500 "Internal server error", s)
    else
      (.ok 200, s.map (fun r => if r.id = relationshipId then rel' else r))

/-- A document of the Connection collection (`src/models/Connection.js`).
`careerAgentId`/`candidateId` are only required for careerAgent documents and
`requestorUserId`/`recipientUserId` only for friend documents, so all four are
optional at the store level. -/
structure ConnRecord where
  id : Nat
  careerAgentId : Option String
  candidateId : Option String
  requestorUserId : Option String
  recipientUserId : Option String
  connectionType : ConnType
  relationshipStatus : RStatus
  startDate : Option Nat
  endDate : Option Nat
  message : Option String
  deriving DecidableEq

/-- Mongoose query-value semantics: an `undefined` value is stripped from the
filter and matches every document; a present value requires field equality. -/
def matchOpt (q : Option String) (f : Option String) : Bool :=
  match q with
  | none => true
  | some u => f == some u

/-- `UserProfile.findOne({userId: v})` viewed as an existence test: with `v`
`undefined` the filter collapses to `{}`, which returns the first profile of a
non-empty collection. -/
def profileFound (profiles : List String) : Option String → Bool
  | some u => profiles.contains u
  | none => !profiles.isEmpty

/-- A request-body string that fails the `trim().isLength({min: 1})` validator:
absent, or empty after trimming. -/
def strAbsent : Option String → Bool
  | none => true
  | some s => s == ""

/-- Violation test for the Connection collection's two unique partial indexes
when inserting a brand-new document `r`: candidate exclusivity over active
careerAgent documents, and the ordered (requestor, recipient) pair over friend
documents. -/
def connDupKeyIns (s : List ConnRecord) (r : ConnRecord) : Bool :=
  (r.connectionType == ConnType.careerAgent && r.relationshipStatus == RStatus.active &&
    s.any (fun o => o.connectionType == ConnType.careerAgent &&
      o.relationshipStatus == RStatus.active && o.candidateId == r.candidateId)) ||
  (r.connectionType == ConnType.friend &&
    s.any (fun o => o.connectionType == ConnType.friend &&
      o.requestorUserId == r.requestorUserId && o.recipientUserId == r.recipientUserId))

/-- Violation test for the candidate-exclusivity index when saving an update to
document `r`.  The friend-pair index keys (requestorUserId, recipientUserId,
connectionType) are never modified by the update paths, so only the
candidate-exclusivity index (whose key includes relationshipStatus) can newly
fire on an update. -/
def connDupKeyUpd (s : List ConnRecord) (r : ConnRecord) : Bool :=
  r.connectionType == ConnType.careerAgent && r.relationshipStatus == RStatus.active &&
    s.any (fun o => o.id != r.id && o.connectionType == ConnType.careerAgent &&
      o.relationshipStatus == RStatus.active && o.candidateId == r.candidateId)

/-- POST /api/connections (`src/routes/connections copy.js`, create).  Note the
destructuring default `relationshipStatus = 'pending'` and the absence of any
requestor = recipient check.  The catch block maps duplicate-key (11000) errors
to HTTP 400. -/
def connCreate (profiles : List String) (s : List ConnRecord) (newId now : Nat)
    (careerAgentId candidateId requestorUserId recipientUserId : Option String)
    (connectionType : ConnType) (message : Option String)
    (relationshipStatus : Option RStatus) : Resp × List ConnRecord :=
  if (connectionType = ConnType.careerAgent ∧ (strAbsent careerAgentId ∨ strAbsent candidateId)) ∨
      (connectionType = ConnType.friend ∧ (strAbsent requestorUserId ∨ strAbsent recipientUserId)) ∨
      ¬ msgOk message then
    (.err 400 "Validation failed", s)
  else if connectionType = ConnType.careerAgent ∧
      (strAbsent careerAgentId ∨ strAbsent candidateId) then
    (.err 400 "careerAgentId and candidateId are required for careerAgent connection type", s)
  else if connectionType = ConnType.friend ∧
      (strAbsent requestorUserId ∨ strAbsent recipientUserId) then
    (.err 400 "requestorUserId and recipientUserId are required for friend connection type", s)
  else if ¬ profileFound profiles requestorUserId then
    (.err 404 "Requestor profile not found", s)
  else if ¬ profileFound profiles recipientUserId then
    (.err 404 "Recipient profile not found", s)
  else if s.any (fun r =>
      (matchOpt requestorUserId r.requestorUserId && matchOpt recipientUserId r.recipientUserId &&
        r.connectionType == connectionType) ||
      (matchOpt recipientUserId r.requestorUserId && matchOpt requestorUserId r.recipientUserId &&
        r.connectionType == connectionType)) then
    (.err 400 (connectionType.str ++ " connection already exists between these users"), s)
  else
    let newRec : ConnRecord :=
      { id := newId,
        careerAgentId := if connectionType = ConnType.careerAgent then careerAgentId else none,
        candidateId := if connectionType = ConnType.careerAgent then candidateId else none,
        requestorUserId := requestorUserId, recipientUserId := recipientUserId,
        connectionType := connectionType,
        relationshipStatus := relationshipStatus.getD RStatus.pending,
        startDate := some now, endDate := none, message := message }
    if connDupKeyIns s newRec then
      (.err 400 "A connection of this type already exists between these users", s)
    else
      (.ok 201, s ++ [newRec])

/-- POST /api/connections/request.  `actorId` is `req.user.userId`.  An empty
`recipientUserId` models both an absent and an empty body field (both falsy and
rejected up front).  The catch block has no 11000 case, so any save error is
HTTP 500. -/
def connRequest (profiles : List String) (s : List ConnRecord) (newId now : Nat)
    (actorId : String) (recipientUserId : String) (connectionType : Option ConnType)
    (message : Option String) : Resp × List ConnRecord :=
  match connectionType with
  | none => (.err 400 "recipientUserId and connectionType are required", s)
  | some ct =>
    if recipientUserId = "" then
      (.err 400 "recipientUserId and connectionType are required", s)
    else if ¬ profiles.contains recipientUserId then
      (.err 404 "Recipient profile not found", s)
    else if s.any (fun r =>
        (r.requestorUserId == some actorId && r.recipientUserId == some recipientUserId &&
          r.connectionType == ct) ||
        (r.requestorUserId == some recipientUserId && r.recipientUserId == some actorId &&
          r.connectionType == ct)) then
      (.err 400 (ct.str ++ " connection or request already exists"), s)
    else
      let newRec : ConnRecord :=
        { id := newId,
          careerAgentId := if ct = ConnType.careerAgent then some actorId else none,
          candidateId := if ct = ConnType.careerAgent then some recipientUserId else none,
          requestorUserId := some actorId, recipientUserId := some recipientUserId,
          connectionType := ct, relationshipStatus := RStatus.requested,
          startDate := some now, endDate := none, message := message }
      if ¬ msgOk newRec.message ∨ connDupKeyIns s newRec then
        (.err 500 "Internal server error", s)
      else
        (.ok 201, s ++ [newRec])

/-- POST /api/connections/propose.  `actorId` is `req.user.userId` (the
proposing career agent).  The existence check only looks for records linking
this same pair — it never checks whether the candidate already has an active
agent elsewhere. -/
def connPropose (profiles : List String) (s : List ConnRecord) (newId now : Nat)
    (actorId : String) (candidateUserId : String) (message : Option String) :
    Resp × List ConnRecord :=
  if candidateUserId = "" then
    (.err 400 "candidateUserId is required", s)
  else if ¬ profiles.contains candidateUserId then
    (.err 404 "Candidate profile not found", s)
  else if s.any (fun r =>
      (r.careerAgentId == some actorId && r.candidateId == some candidateUserId &&
        r.connectionType == ConnType.careerAgent) ||
      (r.requestorUserId == some actorId && r.recipientUserId == some candidateUserId &&
        r.connectionType == ConnType.careerAgent) ||
      (r.requestorUserId == some candidateUserId && r.recipientUserId == some actorId &&
        r.connectionType == ConnType.careerAgent)) then
    (.err 400 "Career agent connection or proposal already exists", s)
  else
    let newRec : ConnRecord :=
      { id := newId, careerAgentId := some actorId, candidateId := some candidateUserId,
        requestorUserId := some actorId, recipientUserId := some candidateUserId,
        connectionType := ConnType.careerAgent, relationshipStatus := RStatus.proposed,
        startDate := some now, endDate := none, message := message }
    if ¬ msgOk newRec.message ∨ connDupKeyIns s newRec then
      (.err 500 "Internal server error", s)
    else
      (.ok 201, s ++ [newRec])

/-- PUT /api/connections/:connectionId/accept.  Authorization admits the
recipient or the candidate; afterwards the status must be requested, proposed
or pending.  The handler performs no exclusivity re-check of its own: a
violating save trips the candidate-exclusivity index and the generic catch
returns HTTP 500. -/
def connAccept (s : List ConnRecord) (now : Nat) (connectionId : Nat) (userId : String) :
    Resp × List ConnRecord :=
  match s.find? (fun r => r.id == connectionId) with
  | none => (.err 404 "Connection not found", s)
  | some conn =>
    if ¬ (conn.recipientUserId = some userId ∨ conn.candidateId = some userId) then
      (.err 403 "Not authorized to accept this connection", s)
    else if ¬ (conn.relationshipStatus = RStatus.requested ∨
        conn.relationshipStatus = RStatus.proposed ∨
        conn.relationshipStatus = RStatus.pending) then
      (.err 400 "Connection cannot be accepted in its current state", s)
    else
      let conn' : ConnRecord :=
        { conn with
          relationshipStatus := RStatus.active, startDate := some now }
      if ¬ msgOk conn'.message ∨ connDupKeyUpd s conn' then
        (.err 500 "Internal server error", s)
      else
        (.ok 200, s.map (fun r => if r.id = connectionId then conn' else r))

/-- PUT /api/connections/:connectionId/reject.  Same authorization as accept but
no status precondition; sets relationshipStatus 'rejected', overwrites message
only when the body supplies a truthy one, and never touches endDate. -/
def connReject (s : List ConnRecord) (_now : Nat) (connectionId : Nat) (userId : String)
    (message : Option String) : Resp × List ConnRecord :=
  match s.find? (fun r => r.id == connectionId) with
  | none => (.err 404 "Connection not found", s)
  | some conn =>
    if ¬ (conn.recipientUserId = some userId ∨ conn.candidateId = some userId) then
      (.err 403 "Not authorized to reject this connection", s)
    else
      let conn' : ConnRecord :=
        { conn with
          relationshipStatus := RStatus.rejected,
          message := overwriteMsg message conn.message }
      if ¬ msgOk conn'.message ∨ connDupKeyUpd s conn' then
        (.err 500 "Internal server error", s)
      else
        (.ok 200, s.map (fun r => if r.id = connectionId then conn' else r))

/-- PUT /api/connections/:connectionId.  The actor must be one of the four party
fields; the handler then overwrites status, message and endDate as supplied,
with no restriction based on the current status. -/
def connUpdate (s : List ConnRecord) (_now : Nat) (connectionId : Nat) (userId : String)
    (relationshipStatus : Option RStatus) (message : Option (Option String))
    (endDate : Option Nat) : Resp × List ConnRecord :=
  match s.find? (fun r => r.id == connectionId) with
  | none => (.err 404 "Connection not found", s)
  | some conn =>
    if ¬ (conn.requestorUserId = some userId ∨ conn.recipientUserId = some userId ∨
        conn.careerAgentId = some userId ∨ conn.candidateId = some userId) then
      (.err 403 "Not authorized to update this connection", s)
    else
      let conn' : ConnRecord :=
        { conn with
          relationshipStatus := relationshipStatus.getD conn.relationshipStatus,
          message := match message with
            | some v => v
            | none => conn.message,
          endDate := match endDate with
            | some d => some d
            | none => conn.endDate }
      if ¬ msgOk conn'.message ∨ connDupKeyUpd s conn' then
        (.err 500 "Internal server error", s)
      else
        (.ok 200, s.map (fun r => if r.id = connectionId then conn' else r))

/-- A Connection document in which `userId` appears as any of the four party
fields (the $or filter of GET /api/connections/potentialcontact). -/
def connTouches (userId : String) (r : ConnRecord) : Bool :=
  r.requestorUserId == some userId || r.recipientUserId == some userId ||
    r.careerAgentId == some userId || r.candidateId == some userId

/-- `p` appears as one of the four party fields of `r`. -/
def connField (r : ConnRecord) (p : String) : Bool :=
  r.requestorUserId == some p || r.recipientUserId == some p ||
    r.careerAgentId == some p || r.candidateId == some p

/-- GET /api/connections/potentialcontact.  Collects every connection touching
`userId` (with no status filter at all), excludes every other participant of
those connections together with `userId` itself, and returns the first `limit`
remaining profiles. -/
def potentialContacts (profiles : List String) (s : List ConnRecord) (userId : String)
    (limit : Nat) : List String :=
  (profiles.filter (fun p =>
    !(p == userId ||
      s.any (fun r => connTouches userId r && connField r p && p != userId)))).take limit

/-- Modelled from the spec, §4.1, for comparison with the code: the receiving
party of a relationship record — the recipient for Friend records and for
agent-initiated CareerAgent records, the agent for candidate-initiated
CareerAgent records (a CareerAgent record is candidate-initiated when its
requestor is its candidate). -/
def specReceivingParty (r : ConnRecord) : Option String :=
  match r.connectionType with
  | ConnType.friend => r.recipientUserId
  | ConnType.careerAgent =>
    if r.requestorUserId = r.candidateId then r.careerAgentId else r.recipientUserId

/-! Concrete stores used to falsify claims at explicit inputs. -/

/-- CareerAgent collection in which candidate C1 already has an active agent A1
while a second agent A2 has a proposed relationship with C1. -/
def c1Store : List CaRecord :=
  [ { id := 1, careerAgentId := "A1", candidateId := "C1",
      relationshipStatus := RStatus.active, startDate := some 0, endDate := none,
      message := none },
    { id := 2, careerAgentId := "A2", candidateId := "C1",
      relationshipStatus := RStatus.proposed, startDate := some 1, endDate := none,
      message := none } ]

def c2Profiles : List String := ["A1", "A2", "C1"]

/-- Connection collection in which candidate C1 already has an active careerAgent
connection with agent A1. -/
def c2Store : List ConnRecord :=
  [ { id := 1, careerAgentId := some "A1", candidateId := some "C1",
      requestorUserId := some "A1", recipientUserId := some "C1",
      connectionType := ConnType.careerAgent, relationshipStatus := RStatus.active,
      startDate := some 0, endDate := none, message := none } ]

/-- A candidate-initiated careerAgent connection: requestor C is the candidate,
recipient A is the agent, awaiting acceptance. -/
def c6Rec : ConnRecord :=
  { id := 1, careerAgentId := some "A", candidateId := some "C",
    requestorUserId := some "C", recipientUserId := some "A",
    connectionType := ConnType.careerAgent, relationshipStatus := RStatus.requested,
    startDate := some 0, endDate := none, message := none }

def c6Store : List ConnRecord := [c6Rec]

/-- A friend connection between U1 and U2 that has been rejected. -/
def c7Store : List ConnRecord :=
  [ { id := 1, careerAgentId := none, candidateId := none,
      requestorUserId := some "U1", recipientUserId := some "U2",
      connectionType := ConnType.friend, relationshipStatus := RStatus.rejected,
      startDate := some 0, endDate := some 2, message := none } ]

/-- A rejected friend connection between U1 and U2 (for the potential-contacts claim). -/
def c8Store : List ConnRecord :=
  [ { id := 1, careerAgentId := none, candidateId := none,
      requestorUserId := some "U1", recipientUserId := some "U2",
      connectionType := ConnType.friend, relationshipStatus := RStatus.rejected,
      startDate := some 0, endDate := some 3, message := none } ]

/-- A proposed CareerAgent-collection relationship between agent A and candidate C. -/
def c4Store : List CaRecord :=
  [ { id := 1, careerAgentId := "A", candidateId := "C",
      relationshipStatus := RStatus.proposed, startDate := some 0, endDate := none,
      message := none } ]

/-- An active CareerAgent-collection relationship between agent A and candidate C. -/
def c9Rec : CaRecord :=
  { id := 1, careerAgentId := "A", candidateId := "C",
    relationshipStatus := RStatus.active, startDate := some 0, endDate := none,
    message := none }

def c9Store : List CaRecord := [c9Rec]

/-- The record written by a successful careerAgent-collection accept, with
status forced to active and startDate stamped. -/
def caActivated (rel : CaRecord) (now : Nat) : CaRecord :=
  { rel with relationshipStatus := RStatus.active, startDate := some now }

/-- C1 counterexample: accepting A2's proposed relationship for candidate C1 while
A1 is already active for C1 does refuse to activate the record, but the failure is
the generic HTTP 500 of the accept handler's catch block (the duplicate-key error
of the exclusivity index), not a Conflict-style 4xx response. -/
theorem c1_counterexample :
    caAccept c1Store 5 2 "C1" = (Resp.err 500 "Internal server error", c1Store) ∧
    ∀ m, (caAccept c1Store 5 2 "C1").1 ≠ Resp.err 400 m ∧
      (caAccept c1Store 5 2 "C1").1 ≠ Resp.err 409 m := by
  have h : caAccept c1Store 5 2 "C1" = (Resp.err 500 "Internal server error", c1Store) := by
    decide
  refine ⟨h, fun m => ⟨?_, ?_⟩⟩ <;>
    · rw [h]
      intro hcontra
      injection hcontra with h1 _
      exact absurd h1 (by decide)

/-- C2 counterexample: with candidate C1 already linked to active agent A1 in the
Connection collection, a propose from a different agent A2 succeeds and inserts a
second record instead of failing with Conflict. -/
theorem c2_counterexample :
    (∃ r ∈ c2Store, r.connectionType = ConnType.careerAgent ∧
      r.candidateId = some "C1" ∧ r.relationshipStatus = RStatus.active) ∧
    (connPropose c2Profiles c2Store 2 5 "A2" "C1" none).1 = Resp.ok 201 ∧
    (connPropose c2Profiles c2Store 2 5 "A2" "C1" none).2.length = 2 := by decide

/-- C3 counterexample: POST /api/connections happily creates a friend connection
whose requestor and recipient are the same person U1. -/
theorem c3_counterexample :
    (connCreate ["U1"] [] 1 3 none none (some "U1") (some "U1")
      ConnType.friend none none).1 = Resp.ok 201 ∧
    ∃ r ∈ (connCreate ["U1"] [] 1 3 none none (some "U1") (some "U1")
      ConnType.friend none none).2, r.requestorUserId = r.recipientUserId := by decide

/-- C4 counterexample: a successful careerAgent-collection reject stores
relationshipStatus 'inactive', not 'rejected'. -/
theorem c4_counterexample :
    (caReject c4Store 7 1 "C" none).1 = Resp.ok 200 ∧
    (∀ r ∈ (caReject c4Store 7 1 "C" none).2,
      r.relationshipStatus = RStatus.inactive ∧ r.relationshipStatus ≠ RStatus.rejected) := by
  decide

/-- C5 counterexample: a createDirect on the Connection collection with no status
supplied produces a record whose status is 'pending' (the route's destructuring
default), not 'active' — and its startDate is stamped anyway. -/
theorem c5_counterexample :
    (connCreate ["U1", "U2"] [] 1 7 none none (some "U1") (some "U2")
      ConnType.friend none none).1 = Resp.ok 201 ∧
    (∀ r ∈ (connCreate ["U1", "U2"] [] 1 7 none none (some "U1") (some "U2")
      ConnType.friend none none).2,
      r.relationshipStatus = RStatus.pending ∧ r.relationshipStatus ≠ RStatus.active ∧
        r.startDate = some 7) := by decide

/-- C6 counterexample: for the candidate-initiated record c6Rec the receiving
party in the sense of the spec is the agent A, yet the initiating candidate C can
accept it: the call succeeds and activates the record instead of failing with
Forbidden. -/
theorem c6_counterexample :
    specReceivingParty c6Rec = some "A" ∧ ("C" : String) ≠ "A" ∧
    (connAccept c6Store 9 1 "C").1 = Resp.ok 200 ∧
    (∀ r ∈ (connAccept c6Store 9 1 "C").2, r.relationshipStatus = RStatus.active) := by decide

/-- C7 counterexample: the generic connection update moves a Rejected record
straight back to Active. -/
theorem c7_counterexample :
    (∀ r ∈ c7Store, r.relationshipStatus = RStatus.rejected) ∧
    (connUpdate c7Store 9 1 "U1" (some RStatus.active) none none).1 = Resp.ok 200 ∧
    (∀ r ∈ (connUpdate c7Store 9 1 "U1" (some RStatus.active) none none).2,
      r.relationshipStatus = RStatus.active) := by decide

/-- C8 counterexample: U2 is linked to U1 only by a Rejected relationship, yet the
potential-contacts query still excludes U2 (its exclusion ignores status). -/
theorem c8_counterexample :
    (∀ r ∈ c8Store, r.relationshipStatus = RStatus.rejected) ∧
    potentialContacts ["U1", "U2"] c8Store "U1" 50 = [] ∧
    potentialContacts ["U1", "U2"] [] "U1" 50 = ["U2"] := by decide

/-- C9 counterexample: the careerAgent-collection update performs no party check:
a stranger Zed updates the A–C relationship successfully and the store changes. -/
theorem c9_counterexample :
    ("Zed" ≠ c9Rec.careerAgentId ∧ "Zed" ≠ c9Rec.candidateId) ∧
    (caUpdate c9Store 9 1 "Zed" (some RStatus.inactive) none none).1 = Resp.ok 200 ∧
    (caUpdate c9Store 9 1 "Zed" (some RStatus.inactive) none none).2 ≠ c9Store := by decide

/-- C3 (amended): the careerAgent-collection routes do reject self-relationships —
create (past its field validation), request and propose all fail with the
route's 400 validation message and leave the store unchanged when agent and
candidate are the same person; the Connection-collection create/request/propose
routes perform no such check. -/
theorem c3_theorem :
    (∀ (profiles : List String) (s : List CaRecord) (newId now : Nat) (a : String)
       (m : Option String) (rs : Option RStatus), a ≠ "" → msgOk m →
       caCreate profiles s newId now a a m rs =
         (Resp.err 400 "Career agent and candidate cannot be the same person", s)) ∧
    (∀ (profiles : List String) (s : List CaRecord) (newId now : Nat) (a : String)
       (fn : Option String) (m : Option String),
       caRequest profiles s newId now a fn a m =
         (Resp.err 400 "You cannot request yourself as a career agent", s)) ∧
    (∀ (profiles : List String) (s : List CaRecord) (newId now : Nat) (a : String)
       (fn : Option String) (m : Option String),
       caPropose profiles s newId now a fn a m =
         (Resp.err 400 "You cannot propose yourself as your own career agent", s)) := by
  refine ⟨?_, ?_, ?_⟩
  · intro profiles s newId now a m rs ha hm
    simp [caCreate, ha, hm]
  · intro profiles s newId now a fn m
    simp [caRequest]
  · intro profiles s newId now a fn m
    simp [caPropose]

/-- C3 witness: concrete self-relationship rejections on the careerAgent routes. -/
theorem c3_witness :
    caCreate ["U1"] [] 1 3 "U1" "U1" none none =
      (Resp.err 400 "Career agent and candidate cannot be the same person", []) :=
  c3_theorem.1 ["U1"] [] 1 3 "U1" none none (by decide) (by decide)

/-- C9 (amended): the Connection-collection update enforces the party check — an
actor who is none of requestor, recipient, careerAgent or candidate gets
Forbidden and the store is unchanged; the CareerAgent-collection update has no
party check at all. -/
theorem c9_theorem :
    ∀ (s : List ConnRecord) (now cid : Nat) (u : String) (rs : Option RStatus)
      (m : Option (Option String)) (e : Option Nat) (conn : ConnRecord),
      List.find? (fun r => r.id == cid) s = some conn →
      ¬ (conn.requestorUserId = some u ∨ conn.recipientUserId = some u ∨
         conn.careerAgentId = some u ∨ conn.candidateId = some u) →
      connUpdate s now cid u rs m e =
        (Resp.err 403 "Not authorized to update this connection", s) := by
  intro s now cid u rs m e conn hfind hauth
  simp only [connUpdate, hfind, if_pos hauth]

/-- C9 witness: a stranger cannot update a friend connection between U1 and U2. -/
theorem c9_witness :
    connUpdate c7Store 4 1 "Zed" (some RStatus.active) none none =
      (Resp.err 403 "Not authorized to update this connection", c7Store) :=
  c9_theorem c7Store 4 1 "Zed" (some RStatus.active) none none
    { id := 1, careerAgentId := none, candidateId := none,
      requestorUserId := some "U1", recipientUserId := some "U2",
      connectionType := ConnType.friend, relationshipStatus := RStatus.rejected,
      startDate := some 0, endDate := some 2, message := none }
    (by decide) (by decide)

/-- C6 (amended): accept and reject on the Connection collection fail with
Forbidden and leave the store unchanged exactly when the actor is neither the
recipient nor the candidate of the record (so the initiating candidate of a
candidate-initiated careerAgent record is allowed through); on the CareerAgent
collection, accept and reject on a pending record by anyone but the agent, or
on a proposed record by anyone but the candidate, fail with Forbidden and leave
the store unchanged. -/
theorem c6_theorem :
    (∀ (s : List ConnRecord) (now cid : Nat) (u : String) (conn : ConnRecord),
       List.find? (fun r => r.id == cid) s = some conn →
       ¬ (conn.recipientUserId = some u ∨ conn.candidateId = some u) →
       connAccept s now cid u =
         (Resp.err 403 "Not authorized to accept this connection", s)) ∧
    (∀ (s : List ConnRecord) (now cid : Nat) (u : String) (m : Option String)
       (conn : ConnRecord),
       List.find? (fun r => r.id == cid) s = some conn →
       ¬ (conn.recipientUserId = some u ∨ conn.candidateId = some u) →
       connReject s now cid u m =
         (Resp.err 403 "Not authorized to reject this connection", s)) ∧
    (∀ (s : List CaRecord) (now rid : Nat) (u : String) (rel : CaRecord),
       List.find? (fun r => r.id == rid && (r.relationshipStatus == RStatus.pending ||
         r.relationshipStatus == RStatus.proposed)) s = some rel →
       (rel.relationshipStatus = RStatus.pending → rel.careerAgentId ≠ u) →
       (rel.relationshipStatus = RStatus.proposed → rel.candidateId ≠ u) →
       caAccept s now rid u =
         (Resp.err 403 "You are not authorized to accept this request", s)) ∧
    (∀ (s : List CaRecord) (now rid : Nat) (u : String) (m : Option String)
       (rel : CaRecord),
       List.find? (fun r => r.id == rid && (r.relationshipStatus == RStatus.pending ||
         r.relationshipStatus == RStatus.proposed)) s = some rel →
       (rel.relationshipStatus = RStatus.pending → rel.careerAgentId ≠ u) →
       (rel.relationshipStatus = RStatus.proposed → rel.candidateId ≠ u) →
       caReject s now rid u m =
         (Resp.err 403 "You are not authorized to reject this request", s)) := by
  refine ⟨?_, ?_, ?_, ?_⟩
  · intro s now cid u conn hfind hauth
    simp only [connAccept, hfind, if_pos hauth]
  · intro s now cid u m conn hfind hauth
    simp only [connReject, hfind, if_pos hauth]
  · intro s now rid u rel hfind h1 h2
    have hp := List.find?_some hfind
    simp only [Bool.and_eq_true, Bool.or_eq_true, beq_iff_eq] at hp
    rcases hp.2 with h | h
    · simp [caAccept, hfind, h, h1 h]
    · simp [caAccept, hfind, h, h2 h]
  · intro s now rid u m rel hfind h1 h2
    have hp := List.find?_some hfind
    simp only [Bool.and_eq_true, Bool.or_eq_true, beq_iff_eq] at hp
    rcases hp.2 with h | h
    · simp [caReject, hfind, h, h1 h]
    · simp [caReject, hfind, h, h2 h]

/-- C6 witness: a stranger Zed can neither accept a requested connection nor
accept a pending CareerAgent-collection request. -/
theorem c6_witness :
    connAccept c6Store 5 1 "Zed" =
      (Resp.err 403 "Not authorized to accept this connection", c6Store) :=
  c6_theorem.1 c6Store 5 1 "Zed" c6Rec (by decide) (by decide)

/-- C2 (amended): the careerAgent-collection request and propose do fail (with
the routes' 400 conflict responses, creating no record) when the candidate
already has an Active relationship with any agent, and when a pending (for
request) or pending/proposed (for propose) record already exists for the pair;
the Connection-collection propose checks only for records linking the same
pair, not for an Active relationship of the candidate with another agent. -/
theorem c2_theorem :
    (∀ (profiles : List String) (s : List CaRecord) (newId now : Nat)
       (actorId : String) (fn m : Option String) (agentId : String),
       agentId ≠ actorId → agentId ∈ profiles →
       (∃ r ∈ s, r.candidateId = actorId ∧ r.relationshipStatus = RStatus.active) →
       caRequest profiles s newId now actorId fn agentId m =
         (Resp.err 400 "You already have an active career agent", s)) ∧
    (∀ (profiles : List String) (s : List CaRecord) (newId now : Nat)
       (actorId : String) (fn m : Option String) (candidateId : String),
       actorId ≠ candidateId → candidateId ∈ profiles →
       (∃ r ∈ s, r.candidateId = candidateId ∧ r.relationshipStatus = RStatus.active) →
       caPropose profiles s newId now actorId fn candidateId m =
         (Resp.err 400 "This candidate already has an active career agent", s)) ∧
    (∀ (profiles : List String) (s : List CaRecord) (newId now : Nat)
       (actorId : String) (fn m : Option String) (agentId : String),
       agentId ≠ actorId → agentId ∈ profiles →
       (∀ r ∈ s, ¬ (r.candidateId = actorId ∧ r.relationshipStatus = RStatus.active)) →
       (∃ r ∈ s, r.careerAgentId = agentId ∧ r.candidateId = actorId ∧
         r.relationshipStatus = RStatus.pending) →
       caRequest profiles s newId now actorId fn agentId m =
         (Resp.err 400 "You already have a pending request to this career agent", s)) ∧
    (∀ (profiles : List String) (s : List CaRecord) (newId now : Nat)
       (actorId : String) (fn m : Option String) (candidateId : String) (ex : CaRecord),
       actorId ≠ candidateId → candidateId ∈ profiles →
       (∀ r ∈ s, ¬ (r.candidateId = candidateId ∧ r.relationshipStatus = RStatus.active)) →
       List.find? (fun r => r.careerAgentId == actorId && r.candidateId == candidateId &&
         (r.relationshipStatus == RStatus.pending ||
          r.relationshipStatus == RStatus.proposed)) s = some ex →
       caPropose profiles s newId now actorId fn candidateId m =
         (Resp.err 400 ("A " ++ ex.relationshipStatus.str ++
           " relationship already exists between you and this candidate"), s)) := by
  refine ⟨?_, ?_, ?_, ?_⟩
  · intro profiles s newId now actorId fn m agentId hne hc hex
    have hany : (s.any fun r => r.candidateId == actorId &&
        r.relationshipStatus == RStatus.active) = true := by
      rw [List.any_eq_true]
      obtain ⟨r, hr, h1, h2⟩ := hex
      exact ⟨r, hr, by simp [h1, h2]⟩
    simp [caRequest, hne, hc, hany]
  · intro profiles s newId now actorId fn m candidateId hne hc hex
    have hany : (s.any fun r => r.candidateId == candidateId &&
        r.relationshipStatus == RStatus.active) = true := by
      rw [List.any_eq_true]
      obtain ⟨r, hr, h1, h2⟩ := hex
      exact ⟨r, hr, by simp [h1, h2]⟩
    simp [caPropose, hne, hc, hany]
  · intro profiles s newId now actorId fn m agentId hne hc hnoact hex
    have hany1 : (s.any fun r => r.candidateId == actorId &&
        r.relationshipStatus == RStatus.active) = false := by
      rw [List.any_eq_false]
      intro r hr
      simpa using fun h1 h2 => hnoact r hr ⟨h1, h2⟩
    have hany2 : (s.any fun r => r.careerAgentId == agentId && r.candidateId == actorId &&
        r.relationshipStatus == RStatus.pending) = true := by
      rw [List.any_eq_true]
      obtain ⟨r, hr, h1, h2, h3⟩ := hex
      exact ⟨r, hr, by simp [h1, h2, h3]⟩
    simp [caRequest, hne, hc, hany1, hany2]
  · intro profiles s newId now actorId fn m candidateId ex hne hc hnoact hfind
    have hany1 : (s.any fun r => r.candidateId == candidateId &&
        r.relationshipStatus == RStatus.active) = false := by
      rw [List.any_eq_false]
      intro r hr
      simpa using fun h1 h2 => hnoact r hr ⟨h1, h2⟩
    simp [caPropose, hne, hc, hany1, hfind]

/-- C2 witness: a second proposed record for the same pair blocks a
careerAgent-collection propose. -/
theorem c2_witness :
    caPropose ["A", "C"] c4Store 2 8 "A" none "C" none =
      (Resp.err 400
        "A proposed relationship already exists between you and this candidate",
        c4Store) := by
  have h := (c2_theorem.2.2.2) ["A", "C"] c4Store 2 8 "A" none none "C"
    { id := 1, careerAgentId := "A", candidateId := "C",
      relationshipStatus := RStatus.proposed, startDate := some 0, endDate := none,
      message := none }
    (by decide) (by decide) (by decide) (by decide)
  simpa using h

/-- C4 (amended): a successful Connection-collection reject sets status Rejected
and overwrites the note only when one is supplied, but leaves endDate untouched;
a successful CareerAgent-collection reject sets status Inactive (not Rejected),
stamps endDate with now, and overwrites the note only when one is supplied. -/
theorem c4_theorem :
    (∀ (s : List ConnRecord) (now cid : Nat) (u : String) (m : Option String)
       (conn : ConnRecord),
       List.find? (fun r => r.id == cid) s = some conn →
       (conn.recipientUserId = some u ∨ conn.candidateId = some u) →
       msgOk (overwriteMsg m conn.message) →
       connReject s now cid u m = (Resp.ok 200,
         s.map (fun r => if r.id = cid then
           { conn with
             relationshipStatus := RStatus.rejected,
             message := overwriteMsg m conn.message } else r))) ∧
    (∀ (s : List CaRecord) (now rid : Nat) (u : String) (m : Option String)
       (rel : CaRecord),
       List.find? (fun r => r.id == rid && (r.relationshipStatus == RStatus.pending ||
         r.relationshipStatus == RStatus.proposed)) s = some rel →
       (rel.relationshipStatus = RStatus.pending → rel.careerAgentId = u) →
       (rel.relationshipStatus = RStatus.proposed → rel.candidateId = u) →
       msgOk (overwriteMsg m rel.message) →
       caReject s now rid u m = (Resp.ok 200,
         s.map (fun r => if r.id = rid then
           { rel with
             relationshipStatus := RStatus.inactive, endDate := some now,
             message := overwriteMsg m rel.message } else r))) := by
  constructor
  · intro s now cid u m conn hfind hauth hmsg
    have hdup : connDupKeyUpd s
        { conn with
          relationshipStatus := RStatus.rejected,
          message := overwriteMsg m conn.message } = false := by
      simp [connDupKeyUpd]
    simp [connReject, hfind, hauth, hmsg, hdup]
  · intro s now rid u m rel hfind h1 h2 hmsg
    have hp := List.find?_some hfind
    simp only [Bool.and_eq_true, Bool.or_eq_true, beq_iff_eq] at hp
    rcases hp.2 with h | h
    · simp [caReject, hfind, h, h1 h, hmsg]
    · simp [caReject, hfind, h, h2 h, hmsg]

/-- C4 witness: rejecting the proposed A–C relationship as candidate C. -/
theorem c4_witness :
    caReject c4Store 7 1 "C" (some "not now") = (Resp.ok 200,
      [{ id := 1, careerAgentId := "A", candidateId := "C",
         relationshipStatus := RStatus.inactive, startDate := some 0,
         endDate := some 7, message := some "not now" }]) := by
  have h := c4_theorem.2 c4Store 7 1 "C" (some "not now")
    { id := 1, careerAgentId := "A", candidateId := "C",
      relationshipStatus := RStatus.proposed, startDate := some 0, endDate := none,
      message := none }
    (by decide) (by decide) (by decide) (by decide)
  rw [h]
  decide

/-- C10 (confirmed): a successful accept on either collection rewrites exactly the
found record, changing only relationshipStatus (to active) and startDate (to
now); the kind, all party identifiers, the message and endDate are carried over
unchanged, and every other record is untouched. -/
theorem c10_theorem :
    (∀ (s : List ConnRecord) (now cid : Nat) (u : String) (conn : ConnRecord),
       List.find? (fun r => r.id == cid) s = some conn →
       (connAccept s now cid u).1 = Resp.ok 200 →
       (connAccept s now cid u).2 = s.map (fun r => if r.id = cid then
         { conn with relationshipStatus := RStatus.active, startDate := some now }
         else r)) ∧
    (∀ (s : List CaRecord) (now rid : Nat) (u : String) (rel : CaRecord),
       List.find? (fun r => r.id == rid && (r.relationshipStatus == RStatus.pending ||
         r.relationshipStatus == RStatus.proposed)) s = some rel →
       (caAccept s now rid u).1 = Resp.ok 200 →
       (caAccept s now rid u).2 = s.map (fun r => if r.id = rid then
         { rel with relationshipStatus := RStatus.active, startDate := some now }
         else r)) := by
  constructor
  · intro s now cid u conn hfind hok
    simp only [connAccept, hfind] at hok ⊢
    split_ifs at hok ⊢
    all_goals simp_all
  · intro s now rid u rel hfind hok
    simp only [caAccept, hfind] at hok ⊢
    split_ifs at hok ⊢
    all_goals simp_all

/-- C10 witness: accepting the candidate-initiated record of c6Store changes only
its status and startDate. -/
theorem c10_witness :
    (connAccept c6Store 9 1 "C").2 = c6Store.map (fun r => if r.id = 1 then
      { c6Rec with relationshipStatus := RStatus.active, startDate := some 9 }
      else r) :=
  c10_theorem.1 c6Store 9 1 "C" c6Rec (by decide) (by decide)

/-- C7 (amended): accept never succeeds on a Rejected record and leaves the store
unchanged (the CareerAgent-collection lookup even reports NotFound, as it does
for reject); a Connection-collection reject of a Rejected record keeps its
status Rejected; but the generic update routes can still change the status of a
Rejected record (see the counterexample). -/
theorem c7_theorem :
    (∀ (s : List ConnRecord) (now cid : Nat) (u : String) (conn : ConnRecord),
       List.find? (fun r => r.id == cid) s = some conn →
       conn.relationshipStatus = RStatus.rejected →
       (connAccept s now cid u).2 = s ∧
         ∀ c, (connAccept s now cid u).1 ≠ Resp.ok c) ∧
    (∀ (s : List CaRecord) (now rid : Nat) (u : String),
       (∀ x ∈ s, x.id = rid → x.relationshipStatus = RStatus.rejected) →
       caAccept s now rid u = (Resp.err 404 "Pending or proposed request not found", s)) ∧
    (∀ (s : List CaRecord) (now rid : Nat) (u : String) (m : Option String),
       (∀ x ∈ s, x.id = rid → x.relationshipStatus = RStatus.rejected) →
       caReject s now rid u m =
         (Resp.err 404 "Pending or proposed request not found", s)) ∧
    (∀ (s : List ConnRecord) (now cid : Nat) (u : String) (m : Option String)
       (conn : ConnRecord),
       List.find? (fun r => r.id == cid) s = some conn →
       conn.relationshipStatus = RStatus.rejected →
       (conn.recipientUserId = some u ∨ conn.candidateId = some u) →
       msgOk (overwriteMsg m conn.message) →
       connReject s now cid u m = (Resp.ok 200,
         s.map (fun r => if r.id = cid then
           { conn with message := overwriteMsg m conn.message } else r))) := by
  refine ⟨?_, ?_, ?_, ?_⟩
  · intro s now cid u conn hfind hrej
    by_cases hauth : conn.recipientUserId = some u ∨ conn.candidateId = some u
    · refine ⟨?_, ?_⟩ <;> simp [connAccept, hfind, hauth, hrej]
    · refine ⟨?_, ?_⟩ <;> simp [connAccept, hfind, hauth]
  · intro s now rid u hall
    have hnone : List.find? (fun r => r.id == rid &&
        (r.relationshipStatus == RStatus.pending ||
         r.relationshipStatus == RStatus.proposed)) s = none := by
      rw [List.find?_eq_none]
      intro x hx
      simp only [Bool.and_eq_true, Bool.or_eq_true, beq_iff_eq, not_and, not_or]
      intro hid
      simp [hall x hx hid]
    simp [caAccept, hnone]
  · intro s now rid u m hall
    have hnone : List.find? (fun r => r.id == rid &&
        (r.relationshipStatus == RStatus.pending ||
         r.relationshipStatus == RStatus.proposed)) s = none := by
      rw [List.find?_eq_none]
      intro x hx
      simp only [Bool.and_eq_true, Bool.or_eq_true, beq_iff_eq, not_and, not_or]
      intro hid
      simp [hall x hx hid]
    simp [caReject, hnone]
  · intro s now cid u m conn hfind hrej hauth hmsg
    have hdup : connDupKeyUpd s
        { conn with
          relationshipStatus := RStatus.rejected,
          message := overwriteMsg m conn.message } = false := by
      simp [connDupKeyUpd]
    simp [connReject, hfind, hauth, hmsg, hdup, hrej]

/-- C7 witness: accepting a rejected connection fails and changes nothing. -/
theorem c7_witness :
    (connAccept c7Store 9 1 "U2").2 = c7Store ∧
      ∀ c, (connAccept c7Store 9 1 "U2").1 ≠ Resp.ok c :=
  c7_theorem.1 c7Store 9 1 "U2"
    { id := 1, careerAgentId := none, candidateId := none,
      requestorUserId := some "U1", recipientUserId := some "U2",
      connectionType := ConnType.friend, relationshipStatus := RStatus.rejected,
      startDate := some 0, endDate := some 2, message := none }
    (by decide) (by decide)

/-- C5 (amended): a careerAgent-collection createDirect stores status Active when
none is supplied (and the supplied status otherwise), while a
Connection-collection createDirect defaults to Pending; in both collections the
created record's startDate is stamped with now unconditionally, regardless of
the resulting status. -/
theorem c5_theorem :
    (∀ (profiles : List String) (s : List CaRecord) (newId now : Nat)
       (a c : String) (m : Option String) (rs : Option RStatus),
       a ≠ "" → c ≠ "" → msgOk m → a ≠ c → a ∈ profiles → c ∈ profiles →
       (∀ r ∈ s, ¬ (r.candidateId = c ∧ r.relationshipStatus = RStatus.active)) →
       List.find? (fun r => r.careerAgentId == a && r.candidateId == c &&
         (r.relationshipStatus == RStatus.pending ||
          r.relationshipStatus == RStatus.proposed)) s = none →
       caCreate profiles s newId now a c m rs = (Resp.ok 201,
         s ++ [{ id := newId, careerAgentId := a, candidateId := c,
                 relationshipStatus := rs.getD RStatus.active, startDate := some now,
                 endDate := none, message := some (m.getD "") }])) ∧
    (∀ (profiles : List String) (s : List ConnRecord) (newId now : Nat)
       (rq rc : String) (m : Option String),
       rq ≠ "" → rc ≠ "" → msgOk m → rq ∈ profiles → rc ∈ profiles →
       (∀ r ∈ s, ¬ ((r.requestorUserId = some rq ∧ r.recipientUserId = some rc ∧
           r.connectionType = ConnType.friend) ∨
         (r.requestorUserId = some rc ∧ r.recipientUserId = some rq ∧
           r.connectionType = ConnType.friend))) →
       connCreate profiles s newId now none none (some rq) (some rc)
         ConnType.friend m none = (Resp.ok 201,
         s ++ [{ id := newId, careerAgentId := none, candidateId := none,
                 requestorUserId := some rq, recipientUserId := some rc,
                 connectionType := ConnType.friend,
                 relationshipStatus := RStatus.pending, startDate := some now,
                 endDate := none, message := m }])) := by
  constructor
  · intro profiles s newId now a c m rs ha hc hm hne hap hcp hnoact hpair
    have hany1 : (s.any fun r => r.candidateId == c &&
        r.relationshipStatus == RStatus.active) = false := by
      rw [List.any_eq_false]
      intro r hr
      simpa using fun h1 h2 => hnoact r hr ⟨h1, h2⟩
    simp [caCreate, ha, hc, hm, hne, hap, hcp, hany1, hpair, caDupKeyIns]
  · intro profiles s newId now rq rc m hrq hrc hm hqp hcp hpair
    have hany : (s.any fun r =>
        (matchOpt (some rq) r.requestorUserId && matchOpt (some rc) r.recipientUserId &&
          r.connectionType == ConnType.friend) ||
        (matchOpt (some rc) r.requestorUserId && matchOpt (some rq) r.recipientUserId &&
          r.connectionType == ConnType.friend)) = false := by
      rw [List.any_eq_false]
      intro r hr
      have hnp := hpair r hr
      simp only [matchOpt, Bool.or_eq_true, Bool.and_eq_true, beq_iff_eq, not_or,
        not_and] at hnp ⊢
      tauto
    have hany2 : (s.any fun o => o.connectionType == ConnType.friend &&
        o.requestorUserId == some rq && o.recipientUserId == some rc) = false := by
      rw [List.any_eq_false]
      intro r hr
      have hnp := hpair r hr
      simp only [Bool.and_eq_true, beq_iff_eq, not_or, not_and] at hnp ⊢
      tauto
    simp [connCreate, strAbsent, profileFound, hrq, hrc, hm, hqp, hcp, hany,
      connDupKeyIns, hany2]

/-- C5 witness: with no status supplied the careerAgent-collection create stores
an Active record with startDate stamped. -/
theorem c5_witness :
    caCreate ["A", "C"] [] 9 4 "A" "C" none none = (Resp.ok 201,
      [{ id := 9, careerAgentId := "A", candidateId := "C",
         relationshipStatus := RStatus.active, startDate := some 4,
         endDate := none, message := some "" }]) := by
  have h := c5_theorem.1 ["A", "C"] [] 9 4 "A" "C" none none
    (by decide) (by decide) (by decide) (by decide) (by decide) (by decide)
    (by decide) (by decide)
  rw [h]
  decide

/-- C8 (amended): the potential-contacts view returns exactly the profiles other
than the caller that are linked to the caller by no Connection document at all —
a record of any status, Rejected and Inactive included, excludes its
participants (subject to the result limit). -/
theorem c8_theorem :
    (∀ (profiles : List String) (s : List ConnRecord) (userId p : String) (limit : Nat),
       p ∈ potentialContacts profiles s userId limit →
       p ∈ profiles ∧ p ≠ userId ∧
         ∀ r ∈ s, ¬ (connTouches userId r = true ∧ connField r p = true)) ∧
    (∀ (profiles : List String) (s : List ConnRecord) (userId p : String) (limit : Nat),
       profiles.length ≤ limit → p ∈ profiles → p ≠ userId →
       (∀ r ∈ s, ¬ (connTouches userId r = true ∧ connField r p = true)) →
       p ∈ potentialContacts profiles s userId limit) := by
  constructor
  · intro profiles s userId p limit hp
    have hmem := List.take_subset _ _ hp
    rw [List.mem_filter] at hmem
    obtain ⟨hprof, hpred⟩ := hmem
    simp only [Bool.not_eq_true', Bool.or_eq_false_iff] at hpred
    have hne : p ≠ userId := by simpa using hpred.1
    refine ⟨hprof, hne, ?_⟩
    intro r hr hcontra
    have hfalse := List.any_eq_false.mp hpred.2 r hr
    simp only [Bool.and_eq_true, bne_iff_ne, ne_eq, not_and] at hfalse
    exact hfalse ⟨hcontra.1, hcontra.2⟩ hne
  · intro profiles s userId p limit hlim hprof hne hnolink
    unfold potentialContacts
    have hfl : (profiles.filter (fun q =>
        !(q == userId ||
          s.any (fun r => connTouches userId r && connField r q && q != userId)))).length ≤
        limit := le_trans (List.length_filter_le _ _) hlim
    rw [List.take_of_length_le hfl, List.mem_filter]
    refine ⟨hprof, ?_⟩
    simp only [Bool.not_eq_true', Bool.or_eq_false_iff]
    refine ⟨by simpa using hne, ?_⟩
    rw [List.any_eq_false]
    intro r hr
    simp only [Bool.and_eq_true, not_and]
    intro hab _
    exact absurd hab (hnolink r hr)

/-- C8 witness: with no connection records at all, the only other profile is
suggested. -/
theorem c8_witness : "U2" ∈ potentialContacts ["U1", "U2"] [] "U1" 50 :=
  c8_theorem.2 ["U1", "U2"] [] "U1" "U2" 50 (by decide) (by decide) (by decide)
    (by decide)

/-- In a list whose keys are pairwise distinct, filtering for the key of a
member yields exactly that member. -/
theorem filter_key_eq_singleton {α : Type} (key : α → Nat) (l : List α) (x : α)
    (hnd : (l.map key).Nodup) (hx : x ∈ l) :
    l.filter (fun y => key y == key x) = [x] := by
  induction l with
  | nil => cases hx
  | cons a t ih =>
    rw [List.map_cons, List.nodup_cons] at hnd
    rw [List.filter_cons]
    rcases List.mem_cons.mp hx with rfl | hxt
    · rw [if_pos (by simp)]
      have ht : t.filter (fun y => key y == key x) = [] := by
        rw [List.filter_eq_nil_iff]
        intro y hy
        simp only [beq_iff_eq]
        intro hk
        exact hnd.1 (by rw [← hk]; exact List.mem_map_of_mem key hy)
      rw [ht]
    · have hka : ¬ ((key a == key x) = true) := by
        simp only [beq_iff_eq]
        intro hk
        exact hnd.1 (by rw [hk]; exact List.mem_map_of_mem key hxt)
      rw [if_neg hka, ih hnd.2 hxt]

/-- Inversion of a successful careerAgent-collection accept: the duplicate-key
test must have been false and the store is the found record activated in place. -/
theorem caAccept_ok_inversion (s : List CaRecord) (now rid : Nat) (u : String)
    (rel : CaRecord)
    (hfind : List.find? (fun r => r.id == rid &&
      (r.relationshipStatus == RStatus.pending ||
       r.relationshipStatus == RStatus.proposed)) s = some rel)
    (hok : (caAccept s now rid u).1 = Resp.ok 200) :
    caDupKey s (caActivated rel now) = false ∧
    (caAccept s now rid u).2 =
      s.map (fun r => if r.id = rid then caActivated rel now else r) := by
  simp only [caAccept, hfind, caActivated] at hok ⊢
  set b := (if rel.relationshipStatus = RStatus.pending then rel.careerAgentId == u
    else if rel.relationshipStatus = RStatus.proposed then rel.candidateId == u
    else false) with hb
  split_ifs at hok ⊢ with hba hsv
  all_goals simp_all [not_or, Bool.not_eq_true]

/-- C1 (amended): the accept handler performs no exclusivity re-check of its own,
but the store's candidate-exclusivity unique index still rejects the write: when
another CareerAgent-collection record for the same candidate is already Active,
an authorized accept of a pending/proposed record fails — surfacing as the
handler's generic 500 internal error rather than a Conflict — and the record is
not set to Active (the store is unchanged); and after any accept that does
succeed, exactly one Active record exists for that candidate. -/
theorem c1_theorem :
    (∀ (s : List CaRecord) (now rid : Nat) (u : String) (rel : CaRecord),
       List.find? (fun r => r.id == rid && (r.relationshipStatus == RStatus.pending ||
         r.relationshipStatus == RStatus.proposed)) s = some rel →
       (s.map CaRecord.id).Nodup →
       (caAccept s now rid u).1 = Resp.ok 200 →
       caActiveCount (caAccept s now rid u).2 rel.candidateId = 1) ∧
    (∀ (s : List CaRecord) (now rid : Nat) (u : String) (rel : CaRecord),
       List.find? (fun r => r.id == rid && (r.relationshipStatus == RStatus.pending ||
         r.relationshipStatus == RStatus.proposed)) s = some rel →
       (rel.relationshipStatus = RStatus.pending → rel.careerAgentId = u) →
       (rel.relationshipStatus = RStatus.proposed → rel.candidateId = u) →
       (∃ o ∈ s, o.id ≠ rid ∧ o.candidateId = rel.candidateId ∧
         o.relationshipStatus = RStatus.active) →
       caAccept s now rid u = (Resp.err 500 "Internal server error", s)) := by
  constructor
  · intro s now rid u rel hfind hnd hok
    have hp := List.find?_some hfind
    simp only [Bool.and_eq_true, Bool.or_eq_true, beq_iff_eq] at hp
    have hmem := List.mem_of_find?_eq_some hfind
    obtain ⟨hdup, hsnd⟩ := caAccept_ok_inversion s now rid u rel hfind hok
    rw [hsnd]
    unfold caActiveCount
    rw [List.filter_map, List.length_map]
    simp only [caDupKey, caActivated, beq_self_eq_true, Bool.true_and] at hdup
    have hcongr : ∀ r ∈ s,
        ((fun x => x.candidateId == rel.candidateId &&
          x.relationshipStatus == RStatus.active) ∘
         (fun x => if x.id = rid then caActivated rel now else x)) r =
        (fun y => CaRecord.id y == CaRecord.id rel) r := by
      intro r hr
      by_cases hid : r.id = rid
      · simp [hid, hp.1, caActivated]
      · have hrfalse := List.any_eq_false.mp hdup r hr
        simp only [Bool.and_eq_true, bne_iff_ne, ne_eq, beq_iff_eq,
          not_and] at hrfalse
        have hne' : r.id ≠ rel.id := by rw [hp.1]; exact hid
        simp only [Function.comp_apply, if_neg hid, beq_iff_eq, hp.1]
        rcases Decidable.em (r.candidateId = rel.candidateId) with hc | hc
        · have hnact := hrfalse ⟨hne', hc⟩
          rw [beq_eq_false_iff_ne.mpr hnact, beq_eq_false_iff_ne.mpr hid,
            Bool.and_false]
        · rw [beq_eq_false_iff_ne.mpr hc, beq_eq_false_iff_ne.mpr hid,
            Bool.false_and]
    rw [List.filter_congr hcongr,
      filter_key_eq_singleton CaRecord.id s rel hnd hmem]
    simp [hp.1, caActivated]
  · intro s now rid u rel hfind h1 h2 hex
    have hp := List.find?_some hfind
    simp only [Bool.and_eq_true, Bool.or_eq_true, beq_iff_eq] at hp
    have hdup : caDupKey s (caActivated rel now) = true := by
      simp only [caDupKey, caActivated, Bool.and_eq_true, List.any_eq_true]
      refine ⟨by simp, ?_⟩
      obtain ⟨o, ho, hne, hcand, hact⟩ := hex
      refine ⟨o, ho, ?_⟩
      simp only [Bool.and_eq_true, bne_iff_ne, ne_eq, beq_iff_eq]
      exact ⟨⟨by rw [hp.1]; exact hne, hcand⟩, hact⟩
    have hdup' := hdup
    simp only [caActivated] at hdup'
    rcases hp.2 with h | h
    · have hbu : (rel.careerAgentId == u) = true := by simp [h1 h]
      simp [caAccept, hfind, h, hbu, hdup']
    · have hbu : (rel.candidateId == u) = true := by simp [h2 h]
      simp [caAccept, hfind, h, hbu, hdup']

/-- C1 witness: part two applied to the two-record store of the counterexample —
the accept fails with the internal error and changes nothing. -/
theorem c1_witness :
    caAccept c1Store 5 2 "C1" = (Resp.err 500 "Internal server error", c1Store) :=
  c1_theorem.2 c1Store 5 2 "C1"
    { id := 2, careerAgentId := "A2", candidateId := "C1",
      relationshipStatus := RStatus.proposed, startDate := some 1, endDate := none,
      message := none }
    (by decide) (by decide) (by decide)
    ⟨{ id := 1, careerAgentId := "A1", candidateId := "C1",
       relationshipStatus := RStatus.active, startDate := some 0, endDate := none,
       message := none }, by decide, by decide, by decide, by decide⟩

end UserProfileSrv
